import Mathlib

/-!
Verification development for the market-scanner subsystem
(api/scanner/alpaca_scan.py, api/scanner/fast_scan.py,
api/scanner/database.py, api/scanner/scheduler.py).

The Python code is shallowly embedded: numeric values are modelled as
rationals, optional / missing dictionary entries as Option, SQLite rows as
Lean structures, and the SQL queries as list filters with SQL NULL
semantics (a comparison against NULL is false).  Python round(x, n) is
modelled as decimal round-half-to-even.
-/

namespace Scanner

/-- Round-half-to-even on rationals (the rounding mode of Python round). -/
def roundHalfEven (q : ℚ) : ℤ :=
  let f := ⌊q⌋
  let r := q - f
  if r < 1/2 then f
  else if 1/2 < r then f + 1
  else if f % 2 = 0 then f else f + 1

/-- Python round(x, n) for nonnegative n, on rationals. -/
def pyRound (n : ℕ) (q : ℚ) : ℚ :=
  (roundHalfEven (q * 10 ^ n) : ℚ) / 10 ^ n

/-- Python truthiness filter on an optional number: None and 0 are falsy. -/
def truthy (o : Option ℚ) : Option ℚ :=
  match o with
  | some x => if x = 0 then none else some x
  | none => none

/-- Python x or y on optional numbers (left operand wins when truthy). -/
def pyOr (a b : Option ℚ) : Option ℚ :=
  match a with
  | some x => if x = 0 then b else some x
  | none => b

/-- Maximum of a list of rationals; the list is nonempty at every use site
(Python max). -/
def listMax : List ℚ → ℚ
  | [] => 0
  | x :: xs => xs.foldl max x

/-- Minimum of a list of rationals; the list is nonempty at every use site
(Python min). -/
def listMin : List ℚ → ℚ
  | [] => 0
  | x :: xs => xs.foldl min x

/-- One historical daily bar as returned by the bulk bars endpoint
(alpaca_scan.py: fields h, l, v accessed via dict get). -/
structure Bar where
  h : Option ℚ
  l : Option ℚ
  v : Option ℚ
  deriving DecidableEq

/-- The dailyBar part of a snapshot (fields c and v). -/
structure DailyBar where
  c : Option ℚ
  v : Option ℚ
  deriving DecidableEq

/-- The prevDailyBar part of a snapshot (field c). -/
structure PrevBar where
  c : Option ℚ
  deriving DecidableEq

/-- One symbol snapshot from the bulk snapshots endpoint: dailyBar,
prevDailyBar and the latestTrade price p.  A missing or empty dict is
none (alpaca_scan.py lines 309-314). -/
structure Snapshot where
  daily : Option DailyBar
  prev : Option PrevBar
  latestTradeP : Option ℚ
  deriving DecidableEq

/-- Average volume as computed in AlpacaScanner._process_batch lines
330-334: mean of the bar volumes excluding the last bar when more than one
bar was returned, today volume otherwise (degraded mode). -/
def avgVolume (bars : List Bar) (currentVolume : ℚ) : ℚ :=
  if bars.length > 1 then
    let volumes := bars.dropLast.map (fun b => b.v.getD 0)
    if volumes.length > 0 then volumes.sum / volumes.length else 0
  else currentVolume

/-- Band high of _process_batch lines 339, 342: max of the bar highs
(a missing high counts as 0), falling back to the current price when no
bars were returned. -/
def bandHigh (bars : List Bar) (currentPrice : ℚ) : ℚ :=
  let highs := bars.map (fun b => b.h.getD 0)
  if highs = [] then currentPrice else listMax highs

/-- Band low of _process_batch lines 340, 343: min of the present nonzero
bar lows, falling back to the current price when there are none. -/
def bandLow (bars : List Bar) (currentPrice : ℚ) : ℚ :=
  let lows := bars.filterMap (fun b => truthy b.l)
  if lows = [] then currentPrice else listMin lows

/-- Distance from a band extreme, lines 345-346: None when the extreme is
falsy (zero), otherwise (price - extreme) / extreme * 100. -/
def distOpt (price extreme : ℚ) : Option ℚ :=
  if extreme = 0 then none else some ((price - extreme) / extreme * 100)

/-- The result dict built for one symbol by _process_batch lines 354-373. -/
structure ScanResult where
  symbol : String
  company_name : Option String
  price : ℚ
  change_percent : ℚ
  volume : ℚ
  avg_volume_20d : Option ℚ
  relative_volume : ℚ
  market_cap : Option ℚ
  market_cap_category : String
  sector : Option String
  industry : Option String
  week_52_high : Option ℚ
  week_52_low : Option ℚ
  distance_from_52w_high : Option ℚ
  distance_from_52w_low : Option ℚ
  is_unusual_volume : Bool
  is_near_high : Bool
  is_near_low : Bool
  deriving DecidableEq

/-- Per-symbol processing of AlpacaScanner._process_batch lines 303-373:
skip when dailyBar or prevDailyBar is missing, or when the effective price
or previous close is falsy; otherwise build the result dict.  Stored
numeric values are rounded to 2 decimals as in the source; the transient
Python None-or-zero guards are kept exactly. -/
def processSymbol (symbol : String) (name : Option String)
    (snap : Snapshot) (bars : List Bar) : Option ScanResult :=
  match snap.daily, snap.prev with
  | some daily, some prev =>
    match truthy (pyOr daily.c snap.latestTradeP), truthy prev.c with
    | some p, some pc =>
      let changePct := (p - pc) / pc * 100
      let v := daily.v.getD 0
      let avg := avgVolume bars v
      let rvol := if avg > 0 then v / avg else 0
      let hi := bandHigh bars p
      let lo := bandLow bars p
      let dHi := distOpt p hi
      let dLo := distOpt p lo
      some {
        symbol := symbol
        company_name := name
        price := pyRound 2 p
        change_percent := pyRound 2 changePct
        volume := v
        avg_volume_20d := if avg = 0 then none else some (pyRound 0 avg)
        relative_volume := pyRound 2 rvol
        market_cap := none
        market_cap_category := "unknown"
        sector := none
        industry := none
        week_52_high := if hi = 0 then none else some (pyRound 2 hi)
        week_52_low := if lo = 0 then none else some (pyRound 2 lo)
        distance_from_52w_high :=
          match dHi with
          | some d => if d = 0 then none else some (pyRound 2 d)
          | none => none
        distance_from_52w_low :=
          match dLo with
          | some d => if d = 0 then none else some (pyRound 2 d)
          | none => none
        is_unusual_volume := decide (rvol ≥ 2)
        is_near_high :=
          match dHi with
          | some d => decide (d ≥ -5)
          | none => false
        is_near_low :=
          match dLo with
          | some d => decide (d ≤ 10)
          | none => false
      }
    | _, _ => none
  | _, _ => none

/-- One row of the stocks table (database.py lines 40-62).  Every payload
column is nullable; the three flag columns are stored as 0/1 and modelled
as Bool; last_updated is modelled as a logical timestamp sampled at each
write (datetime.now is strictly monotone across sequential writes). -/
structure StoredRow where
  symbol : String
  company_name : Option String
  price : Option ℚ
  change_percent : Option ℚ
  volume : Option ℚ
  avg_volume_20d : Option ℚ
  relative_volume : Option ℚ
  market_cap : Option ℚ
  market_cap_category : Option String
  sector : Option String
  industry : Option String
  week_52_high : Option ℚ
  week_52_low : Option ℚ
  distance_from_52w_high : Option ℚ
  distance_from_52w_low : Option ℚ
  is_unusual_volume : Bool
  is_near_high : Bool
  is_near_low : Bool
  last_updated : ℕ
  deriving DecidableEq

/-- The row written by ScannerDB.upsert_stock / bulk_upsert for a scan
result dict (database.py lines 136-164): every field of the dict is
stored, plus the write timestamp. -/
def storeRow (d : ScanResult) (t : ℕ) : StoredRow where
  symbol := d.symbol
  company_name := d.company_name
  price := some d.price
  change_percent := some d.change_percent
  volume := some d.volume
  avg_volume_20d := d.avg_volume_20d
  relative_volume := some d.relative_volume
  market_cap := d.market_cap
  market_cap_category := some d.market_cap_category
  sector := d.sector
  industry := d.industry
  week_52_high := d.week_52_high
  week_52_low := d.week_52_low
  distance_from_52w_high := d.distance_from_52w_high
  distance_from_52w_low := d.distance_from_52w_low
  is_unusual_volume := d.is_unusual_volume
  is_near_high := d.is_near_high
  is_near_low := d.is_near_low
  last_updated := t

/-- A logged scan_metadata row (database.py lines 65-75, log_scan). -/
structure ScanLogRow where
  scan_type : String
  stocks_scanned : ℕ
  stocks_with_data : ℕ
  deriving DecidableEq

/-- The mutable store: the symbol-keyed stocks table (an association list
whose first match wins, like a primary-key lookup), the append-only
scan_metadata log, and the logical clock feeding last_updated. -/
structure DBState where
  stocks : List (String × StoredRow)
  scanRuns : List ScanLogRow
  clock : ℕ

/-- ScannerDB.upsert_stock: INSERT OR REPLACE keyed by symbol, stamping
last_updated with the current time (database.py lines 131-165). -/
def upsert_stock (d : ScanResult) (s : DBState) : DBState :=
  { s with
    stocks := (d.symbol, storeRow d s.clock) ::
      s.stocks.filter (fun p => p.1 ≠ d.symbol)
    clock := s.clock + 1 }

/-- ScannerDB.bulk_upsert: the same replace, row by row in list order
(database.py lines 167-203). -/
def bulk_upsert (ds : List ScanResult) (s : DBState) : DBState :=
  ds.foldl (fun st d => upsert_stock d st) s

/-- ScannerDB.log_scan: append one scan_metadata row (lines 205-219). -/
def log_scan (row : ScanLogRow) (s : DBState) : DBState :=
  { s with scanRuns := s.scanRuns ++ [row] }

/-- SQL comparison column > c with NULL semantics: false on NULL. -/
def qGT (o : Option ℚ) (c : ℚ) : Bool :=
  match o with
  | some x => decide (c < x)
  | none => false

/-- SQL comparison column < c with NULL semantics. -/
def qLT (o : Option ℚ) (c : ℚ) : Bool :=
  match o with
  | some x => decide (x < c)
  | none => false

/-- SQL comparison column >= c with NULL semantics. -/
def qGE (o : Option ℚ) (c : ℚ) : Bool :=
  match o with
  | some x => decide (c ≤ x)
  | none => false

/-- SQL comparison column <= c with NULL semantics. -/
def qLE (o : Option ℚ) (c : ℚ) : Bool :=
  match o with
  | some x => decide (x ≤ c)
  | none => false

/-- SQL comparison column = c with NULL semantics. -/
def qEQ (o : Option ℚ) (c : ℚ) : Bool :=
  match o with
  | some x => decide (x = c)
  | none => false

/-- The optional market_cap_category = ? filter appended by the query
methods when a category is requested. -/
def mccFilter (mcc : Option String) (r : StoredRow) : Bool :=
  match mcc with
  | some c => r.market_cap_category = some c
  | none => true

/-- WHERE clause of ScannerDB.get_near_52w_high (database.py lines
300-310): distance_from_52w_high between -max_distance and 0, volume
above the 100000 floor, optional category. -/
def near52wHighPred (maxDistance : ℚ) (mcc : Option String)
    (r : StoredRow) : Bool :=
  qGE r.distance_from_52w_high (-maxDistance) &&
  qLE r.distance_from_52w_high 0 &&
  qGT r.volume 100000 && mccFilter mcc r

/-- WHERE clause of ScannerDB.get_near_52w_low (lines 324-333). -/
def near52wLowPred (maxDistance : ℚ) (mcc : Option String)
    (r : StoredRow) : Bool :=
  qLE r.distance_from_52w_low maxDistance &&
  qGE r.distance_from_52w_low 0 &&
  qGT r.volume 100000 && mccFilter mcc r

/-- WHERE clause of ScannerDB.get_unusual_volume (lines 231-240):
relative_volume >= min_rvol and volume > 100000, optional category. -/
def unusualVolumePred (minRvol : ℚ) (mcc : Option String)
    (r : StoredRow) : Bool :=
  qGE r.relative_volume minRvol && qGT r.volume 100000 && mccFilter mcc r

/-- ORDER BY distance_from_52w_high DESC comparison. -/
def distHighDesc (a b : StoredRow) : Prop :=
  b.distance_from_52w_high.getD 0 ≤ a.distance_from_52w_high.getD 0

instance : DecidableRel distHighDesc := fun a b =>
  inferInstanceAs (Decidable
    (b.distance_from_52w_high.getD 0 ≤ a.distance_from_52w_high.getD 0))

/-- ORDER BY distance_from_52w_low ASC comparison. -/
def distLowAsc (a b : StoredRow) : Prop :=
  a.distance_from_52w_low.getD 0 ≤ b.distance_from_52w_low.getD 0

instance : DecidableRel distLowAsc := fun a b =>
  inferInstanceAs (Decidable
    (a.distance_from_52w_low.getD 0 ≤ b.distance_from_52w_low.getD 0))

/-- ScannerDB.get_near_52w_high over the current stocks rows: filter,
sort descending by distance, LIMIT. -/
def get_near_52w_high (maxDistance : ℚ) (lim : ℕ) (mcc : Option String)
    (rows : List StoredRow) : List StoredRow :=
  ((rows.filter (near52wHighPred maxDistance mcc)).insertionSort
    distHighDesc).take lim

/-- ScannerDB.get_near_52w_low over the current stocks rows. -/
def get_near_52w_low (maxDistance : ℚ) (lim : ℕ) (mcc : Option String)
    (rows : List StoredRow) : List StoredRow :=
  ((rows.filter (near52wLowPred maxDistance mcc)).insertionSort
    distLowAsc).take lim

/-- ScannerDB.get_unusual_volume over the current stocks rows (sorted by
relative_volume descending). -/
def get_unusual_volume (minRvol : ℚ) (lim : ℕ) (mcc : Option String)
    (rows : List StoredRow) : List StoredRow :=
  ((rows.filter (unusualVolumePred minRvol mcc)).insertionSort
    (fun a b => b.relative_volume.getD 0 ≤ a.relative_volume.getD 0)).take lim

/-!
Indicator aggregator: ScannerDB.calculate_and_store_indicators
(database.py lines 651-802), over the full current stocks table.
-/

/-- Breadth count of advancing rows: change_percent > 0 AND volume > 10000
(database.py line 660). -/
def advancing (T : List StoredRow) : ℕ :=
  (T.filter (fun r => qGT r.change_percent 0 && qGT r.volume 10000)).length

/-- Breadth count of declining rows (line 663). -/
def declining (T : List StoredRow) : ℕ :=
  (T.filter (fun r => qLT r.change_percent 0 && qGT r.volume 10000)).length

/-- Breadth count of unchanged rows (line 666). -/
def unchanged (T : List StoredRow) : ℕ :=
  (T.filter (fun r => qEQ r.change_percent 0 && qGT r.volume 10000)).length

/-- New-high count: distance_from_52w_high >= -2 AND volume > 10000
(line 669). -/
def newHighs (T : List StoredRow) : ℕ :=
  (T.filter (fun r => qGE r.distance_from_52w_high (-2) &&
    qGT r.volume 10000)).length

/-- New-low count: distance_from_52w_low <= 2 AND volume > 10000
(line 672). -/
def newLows (T : List StoredRow) : ℕ :=
  (T.filter (fun r => qLE r.distance_from_52w_low 2 &&
    qGT r.volume 10000)).length

/-- SUM(volume) over advancing rows with the volume > 10000 floor
(lines 679-683). -/
def upVolume (T : List StoredRow) : ℚ :=
  ((T.filter (fun r => qGT r.change_percent 0 && qGT r.volume 10000)).map
    (fun r => r.volume.getD 0)).sum

/-- SUM(volume) over declining rows (lines 685-689). -/
def downVolume (T : List StoredRow) : ℚ :=
  ((T.filter (fun r => qLT r.change_percent 0 && qGT r.volume 10000)).map
    (fun r => r.volume.getD 0)).sum

/-- SUM(volume) over all rows with volume > 10000 (lines 691-692). -/
def totalVolume (T : List StoredRow) : ℚ :=
  ((T.filter (fun r => qGT r.volume 10000)).map
    (fun r => r.volume.getD 0)).sum

/-- Momentum count change_percent >= c AND volume > 10000
(lines 700-707). -/
def gainersPct (c : ℚ) (T : List StoredRow) : ℕ :=
  (T.filter (fun r => qGE r.change_percent c && qGT r.volume 10000)).length

/-- Momentum count change_percent <= -c AND volume > 10000
(lines 709-716). -/
def losersPct (c : ℚ) (T : List StoredRow) : ℕ :=
  (T.filter (fun r => qLE r.change_percent (-c) && qGT r.volume 10000)).length

/-- Fear and Greed breadth component (lines 722-728): share of advancing
rows among advancing + declining + unchanged, 50 when there are none. -/
def fgBreadth (T : List StoredRow) : ℚ :=
  let totalStocks := advancing T + declining T + unchanged T
  if totalStocks > 0 then (advancing T : ℚ) / totalStocks * 100 else 50

/-- Fear and Greed volume component (lines 730-734). -/
def fgVolume (T : List StoredRow) : ℚ :=
  if totalVolume T > 0 then upVolume T / totalVolume T * 100 else 50

/-- Fear and Greed momentum component (lines 736-741). -/
def fgMomentum (T : List StoredRow) : ℚ :=
  let totalMovers := gainersPct 3 T + losersPct 3 T
  if totalMovers > 0 then (gainersPct 3 T : ℚ) / totalMovers * 100 else 50

/-- Fear and Greed strength component (lines 743-748). -/
def fgStrength (T : List StoredRow) : ℚ :=
  let totalExtremes := newHighs T + newLows T
  if totalExtremes > 0 then (newHighs T : ℚ) / totalExtremes * 100 else 50

/-- Composite Fear and Greed score (lines 750-759): equal-weighted average
of the four components, rounded to an integer, clamped to [0, 100]. -/
def fearGreedScore (T : List StoredRow) : ℤ :=
  let raw := roundHalfEven
    (fgBreadth T * (25/100) + fgVolume T * (25/100) +
     fgMomentum T * (25/100) + fgStrength T * (25/100))
  max 0 (min 100 raw)

/-- Label mapping of lines 762-771. -/
def fearGreedLabel (score : ℤ) : String :=
  if score ≤ 20 then "Extreme Fear"
  else if score ≤ 40 then "Fear"
  else if score ≤ 60 then "Neutral"
  else if score ≤ 80 then "Greed"
  else "Extreme Greed"

/-- Modelled from the spec: the baseline liquidity floor that the query
layer convenience views apply is volume > 100000 (the WHERE volume >
100000 clause of get_unusual_volume, get_near_52w_high/low, get_by_sector,
get_most_volatile).  Used to compare the aggregator floor (volume > 10000)
against the view floor. -/
def viewVolumeFloor (r : StoredRow) : Bool :=
  qGT r.volume 100000

/-- Modelled from the spec: the advancing breadth count as it would be if
it were taken over rows passing the convenience-view liquidity floor. -/
def advancingAtViewFloor (T : List StoredRow) : ℕ :=
  (T.filter (fun r => qGT r.change_percent 0 && viewVolumeFloor r)).length

/-!
Scan orchestration: AlpacaScanner.run_scan (alpaca_scan.py lines 381-470)
and FastScanner.run_scan (fast_scan.py lines 156-230).  Per-symbol work is
abstracted by a fetch function returning the processed result dict for the
symbols with data (a batch result is the filterMap of fetch over the
batch, exactly the skip-on-missing-data behaviour of the batch
processors).  The order of store operations is recorded as an event
trace.
-/

/-- Consecutive chunks of size k+1 (the successor form guarantees
progress; AlpacaScanner uses batch_size 200 = 199+1, FastScanner 50 =
49+1, mirroring the Python slicing loop). -/
def chunksOf (k : ℕ) : List α → List (List α)
  | [] => []
  | x :: xs => (x :: xs).take (k + 1) :: chunksOf k ((x :: xs).drop (k + 1))
termination_by l => l.length
decreasing_by simp; omega

/-- One store-visible step of a scan run. -/
inductive ScanEvent where
  | fetchBatch (syms : List String)
  | upsertRows (rows : List ScanResult)
  | logRun (scanned withData : ℕ)
  deriving DecidableEq

/-- The symbols AlpacaScanner.run_scan actually scans: the requested list
intersected with the provider's active/tradeable set (alpaca_scan.py
lines 407-408); symbols outside the set are silently dropped. -/
def alpacaValidSymbols (requested active : List String) : List String :=
  requested.filter (fun s => active.contains s)

/-- The batch loop of AlpacaScanner.run_scan lines 424-443: fetch a batch,
then immediately upsert its results when nonempty, then move to the next
batch. -/
def alpacaLoopEvents (fetch : String → Option ScanResult) :
    List (List String) → List ScanEvent
  | [] => []
  | b :: rest =>
    let rs := b.filterMap fetch
    ScanEvent.fetchBatch b ::
      ((if rs = [] then [] else [ScanEvent.upsertRows rs]) ++
        alpacaLoopEvents fetch rest)

/-- all_results accumulated across the batch loop (lines 421-427). -/
def accumulatedResults (fetch : String → Option ScanResult) :
    List (List String) → List ScanResult
  | [] => []
  | b :: rest => b.filterMap fetch ++ accumulatedResults fetch rest

/-- The full event trace of AlpacaScanner.run_scan: the per-batch loop
followed by the single scan_metadata append with stocks_scanned = the
post-filter total and stocks_with_data = len(all_results) (lines
414, 449-455). -/
def alpacaRunEvents (requested active : List String)
    (fetch : String → Option ScanResult) : List ScanEvent :=
  alpacaLoopEvents fetch (chunksOf 199 (alpacaValidSymbols requested active)) ++
    [ScanEvent.logRun (alpacaValidSymbols requested active).length
      (accumulatedResults fetch
        (chunksOf 199 (alpacaValidSymbols requested active))).length]

/-- The scan_metadata row logged by AlpacaScanner.run_scan (lines
449-455). -/
def alpacaScanLog (requested active : List String)
    (fetch : String → Option ScanResult) : ScanLogRow :=
  { scan_type := "alpaca_scan"
    stocks_scanned := (alpacaValidSymbols requested active).length
    stocks_with_data :=
      (accumulatedResults fetch
        (chunksOf 199 (alpacaValidSymbols requested active))).length }

/-- The full event trace of FastScanner.run_scan (fast_scan.py lines
156-230): all batches are fetched first (thread pool, lines 182-199; one
sequential interleaving is modelled), then the single deferred bulk
upsert of all accumulated results when nonempty (lines 202-203), then the
scan_metadata append (lines 209-215).  No universe filter is applied. -/
def fastRunEvents (symbols : List String)
    (fetch : String → Option ScanResult) : List ScanEvent :=
  (chunksOf 49 symbols).map ScanEvent.fetchBatch ++
    (if accumulatedResults fetch (chunksOf 49 symbols) = [] then []
     else [ScanEvent.upsertRows (accumulatedResults fetch (chunksOf 49 symbols))]) ++
    [ScanEvent.logRun symbols.length
      (accumulatedResults fetch (chunksOf 49 symbols)).length]

/-!
Scheduler: ScannerScheduler (scheduler.py).
-/

/-- Scheduler-side state: the running and scan-in-progress flags, the
last-scan stamp, the store, and a count of worker threads spawned by the
manual trigger. -/
structure SchedulerState where
  running : Bool
  scanInProgress : Bool
  lastScan : Option ℕ
  db : DBState
  workersStarted : ℕ

/-- The dict returned by ScannerScheduler.trigger_scan_now. -/
structure TriggerResult where
  status : String
  message : String
  deriving DecidableEq

/-- ScannerScheduler.trigger_scan_now (scheduler.py lines 127-139): when a
scan is in progress, return the scan_in_progress status and do nothing
else; otherwise record that a background worker was spawned and report
started. -/
def trigger_scan_now (s : SchedulerState) : TriggerResult × SchedulerState :=
  if s.scanInProgress then
    ({ status := "scan_in_progress", message := "A scan is already running" }, s)
  else
    ({ status := "started", message := "Scan started in background" },
     { s with workersStarted := s.workersStarted + 1 })

/-!
Stop/cancellation model for the scheduler worker (scheduler.py lines
59-86, 103-125).  One tick is one second.  _run_scan performs one store
write per tick while a scan is in flight and never reads the running
flag; the flag is read between scans and at every tick of the one-second
sleep loop.  stop() clears the flag and then joins the worker with
timeout 5, so it returns after at most five ticks whether or not the
worker has terminated.
-/

/-- Phase of the worker thread: in the middle of a scan with n store
writes still to perform, in the sleep loop with n ticks left, or
terminated. -/
inductive WPhase where
  | scanning (n : ℕ)
  | sleeping (n : ℕ)
  | done
  deriving DecidableEq

/-- Worker state: phase plus the number of store writes performed. -/
structure WorkerState where
  phase : WPhase
  writes : ℕ
  deriving DecidableEq

/-- One one-second tick of the worker loop.  running is the stop flag as
seen by the worker; startScan is the _should_scan decision (the length of
the scan it would start).  A scan in flight writes a batch each tick and
ignores the flag (alpaca_scan.py run_scan has no cancellation check); the
flag is honoured at scan end and on every sleep tick (scheduler.py lines
72-82). -/
def workerTick (running : Bool) (startScan : Option ℕ)
    (w : WorkerState) : WorkerState :=
  match w.phase with
  | WPhase.scanning (n + 1) => ⟨WPhase.scanning n, w.writes + 1⟩
  | WPhase.scanning 0 =>
    if running then ⟨WPhase.sleeping 60, w.writes⟩ else ⟨WPhase.done, w.writes⟩
  | WPhase.sleeping (n + 1) =>
    if running then ⟨WPhase.sleeping n, w.writes⟩ else ⟨WPhase.done, w.writes⟩
  | WPhase.sleeping 0 =>
    if running then
      match startScan with
      | some d => ⟨WPhase.scanning d, w.writes⟩
      | none => ⟨WPhase.sleeping 60, w.writes⟩
    else ⟨WPhase.done, w.writes⟩
  | WPhase.done => w

/-- Worker evolution after stop() has cleared the flag: every subsequent
tick sees running = false (and the scan decision is irrelevant). -/
def afterStop (k : ℕ) (w : WorkerState) : WorkerState :=
  (workerTick false none)^[k] w

/-!
Helper lemmas.
-/

theorem truthy_some_ne_zero {o : Option ℚ} {p : ℚ}
    (h : truthy o = some p) : p ≠ 0 := by
  unfold truthy at h
  cases o with
  | none => simp at h
  | some x =>
    by_cases hx : x = 0 <;> simp [hx] at h
    subst h; exact hx

/-- Evaluation rule for roundHalfEven when the value sits strictly below
the halfway point above its floor. -/
theorem roundHalfEven_round_down (q : ℚ) (f : ℤ) (h1 : (f : ℚ) ≤ q)
    (h2 : q < f + 1/2) : roundHalfEven q = f := by
  have hf : ⌊q⌋ = f := by
    rw [Int.floor_eq_iff]
    exact ⟨h1, by linarith⟩
  simp only [roundHalfEven]
  rw [hf, if_pos (by linarith)]

/-- Evaluation rule for roundHalfEven when the value sits strictly above
the halfway point above its floor. -/
theorem roundHalfEven_round_up (q : ℚ) (f : ℤ) (h1 : (f : ℚ) + 1/2 < q)
    (h2 : q < f + 1) : roundHalfEven q = f + 1 := by
  have hf : ⌊q⌋ = f := by
    rw [Int.floor_eq_iff]
    refine ⟨by linarith, by linarith⟩
  simp only [roundHalfEven]
  rw [hf, if_neg (by linarith), if_pos (by linarith)]

/-- Evaluation rule for pyRound away from ties. -/
theorem pyRound_eval (n : ℕ) (q : ℚ) (f : ℤ) (h1 : (f : ℚ) ≤ q * 10 ^ n)
    (h2 : q * 10 ^ n < f + 1/2) : pyRound n q = (f : ℚ) / 10 ^ n := by
  rw [pyRound, roundHalfEven_round_down (q * 10 ^ n) f h1 h2]

theorem accumulatedResults_chunksOf (fetch : String → Option ScanResult)
    (k : ℕ) (l : List String) :
    accumulatedResults fetch (chunksOf k l) = l.filterMap fetch := by
  have H : ∀ n (l : List String), l.length ≤ n →
      accumulatedResults fetch (chunksOf k l) = l.filterMap fetch := by
    intro n
    induction n with
    | zero =>
      intro l hl
      rw [List.length_eq_zero.mp (Nat.le_zero.mp hl)]
      simp [chunksOf, accumulatedResults]
    | succ n ih =>
      intro l hl
      cases l with
      | nil => simp [chunksOf, accumulatedResults]
      | cons x xs =>
        rw [chunksOf, accumulatedResults,
          ih _ (by simp at hl ⊢; omega),
          ← List.filterMap_append, List.take_append_drop]
  exact H l.length l le_rfl

theorem mem_chunksOf_subset {k : ℕ} {l b : List String}
    (hb : b ∈ chunksOf k l) : ∀ s ∈ b, s ∈ l := by
  have H : ∀ n (l b : List String), l.length ≤ n → b ∈ chunksOf k l →
      ∀ s ∈ b, s ∈ l := by
    intro n
    induction n with
    | zero =>
      intro l b hl hb
      rw [List.length_eq_zero.mp (Nat.le_zero.mp hl)] at hb
      simp [chunksOf] at hb
    | succ n ih =>
      intro l b hl hb
      cases l with
      | nil => simp [chunksOf] at hb
      | cons x xs =>
        rw [chunksOf] at hb
        rcases List.mem_cons.mp hb with h | h
        · subst h; exact fun s hs => List.take_subset _ _ hs
        · intro s hs
          exact List.drop_subset _ _
            (ih _ _ (by simp at hl ⊢; omega) h s hs)
  exact H l.length l b le_rfl hb

/-- A minimal scan-result dict used for concrete inputs. -/
def mkResult (sym : String) (price chg vol rvol : ℚ) : ScanResult where
  symbol := sym
  company_name := none
  price := price
  change_percent := chg
  volume := vol
  avg_volume_20d := none
  relative_volume := rvol
  market_cap := none
  market_cap_category := "unknown"
  sector := none
  industry := none
  week_52_high := none
  week_52_low := none
  distance_from_52w_high := none
  distance_from_52w_low := none
  is_unusual_volume := false
  is_near_high := false
  is_near_low := false

/-!
Claim theorems.
-/

/-- Claim C5 (confirmed): trigger_scan_now called while a scan is in
progress returns the plain status value scan_in_progress (the function is
total, no exception path), leaves the scheduler state unchanged, spawns no
second worker, and appends no scan run row. -/
theorem C5_trigger_while_scan_in_progress (s : SchedulerState)
    (h : s.scanInProgress = true) :
    (trigger_scan_now s).1.status = "scan_in_progress" ∧
    (trigger_scan_now s).2 = s ∧
    (trigger_scan_now s).2.workersStarted = s.workersStarted ∧
    (trigger_scan_now s).2.db.scanRuns = s.db.scanRuns := by
  simp [trigger_scan_now, h]

/-- Witness for C5 at a concrete in-progress scheduler state. -/
theorem C5_witness :
    (trigger_scan_now ⟨true, true, none, ⟨[], [], 0⟩, 0⟩).1.status =
      "scan_in_progress" ∧
    (trigger_scan_now ⟨true, true, none, ⟨[], [], 0⟩, 0⟩).2 =
      ⟨true, true, none, ⟨[], [], 0⟩, 0⟩ :=
  ⟨(C5_trigger_while_scan_in_progress ⟨true, true, none, ⟨[], [], 0⟩, 0⟩ rfl).1,
   (C5_trigger_while_scan_in_progress ⟨true, true, none, ⟨[], [], 0⟩, 0⟩ rfl).2.1⟩

/-- Claim C8 (confirmed): upserting the same symbol twice in sequence
leaves exactly the second dict as the stored row (INSERT OR REPLACE keyed
by the symbol primary key, no versioning), and the last_updated stamp of
the surviving row is strictly larger than the one written first. -/
theorem C8_upsert_last_write_wins (d1 d2 : ScanResult) (s : DBState)
    (h : d1.symbol = d2.symbol) :
    ((upsert_stock d2 (upsert_stock d1 s)).stocks.lookup d2.symbol =
      some (storeRow d2 (upsert_stock d1 s).clock)) ∧
    ((upsert_stock d1 s).stocks.lookup d2.symbol =
      some (storeRow d1 s.clock)) ∧
    (storeRow d1 s.clock).last_updated <
      (storeRow d2 (upsert_stock d1 s).clock).last_updated ∧
    (storeRow d2 (upsert_stock d1 s).clock).price = some d2.price ∧
    (storeRow d2 (upsert_stock d1 s).clock).change_percent =
      some d2.change_percent ∧
    (storeRow d2 (upsert_stock d1 s).clock).volume = some d2.volume ∧
    (storeRow d2 (upsert_stock d1 s).clock).relative_volume =
      some d2.relative_volume := by
  refine ⟨?_, ?_, ?_, rfl, rfl, rfl, rfl⟩
  · simp [upsert_stock, List.lookup]
  · simp [upsert_stock, List.lookup, ← h]
  · simp [storeRow, upsert_stock]

/-- Witness for C8: two sequential upserts of AAPL into an empty store. -/
theorem C8_witness :
    ((upsert_stock (mkResult "AAPL" 101 2 2000 2)
        (upsert_stock (mkResult "AAPL" 100 1 1000 1) ⟨[], [], 0⟩)).stocks.lookup
      "AAPL" =
      some (storeRow (mkResult "AAPL" 101 2 2000 2)
        (upsert_stock (mkResult "AAPL" 100 1 1000 1) ⟨[], [], 0⟩).clock)) ∧
    (storeRow (mkResult "AAPL" 100 1 1000 1) (0 : ℕ)).last_updated <
      (storeRow (mkResult "AAPL" 101 2 2000 2)
        (upsert_stock (mkResult "AAPL" 100 1 1000 1) ⟨[], [], 0⟩).clock).last_updated :=
  ⟨(C8_upsert_last_write_wins (mkResult "AAPL" 100 1 1000 1)
      (mkResult "AAPL" 101 2 2000 2) ⟨[], [], 0⟩ rfl).1,
   (C8_upsert_last_write_wins (mkResult "AAPL" 100 1 1000 1)
      (mkResult "AAPL" 101 2 2000 2) ⟨[], [], 0⟩ rfl).2.2.1⟩

/-- Claim C6 (corrected): the claim that no store write occurs after
stop() returns fails, because stop() joins the worker with a five-second
timeout (scheduler.py line 63) while an in-flight scan neither checks the
stop flag nor is cancelled.  Concretely: with a scan in flight that still
has ten batch writes to perform when the flag is cleared, the worker is
not terminated when the five-tick join expires and stop() returns, and it
performs a further store write on the following tick. -/
theorem C6_counterexample :
    (afterStop 5 ⟨WPhase.scanning 10, 0⟩).phase ≠ WPhase.done ∧
    (afterStop 5 ⟨WPhase.scanning 10, 0⟩).writes <
      (afterStop 6 ⟨WPhase.scanning 10, 0⟩).writes := by
  decide

/-- Claim C6 (amended): after stop() clears the flag, a worker that is
between scans (in the one-second sleep loop) observes the flag within one
tick and terminates with no further store writes; a scan already in
flight is not cancelled — the worker performs exactly its remaining batch
writes and only then terminates.  Writes after stop() returns are
therefore possible exactly when the in-flight scan outlasts the
five-second join timeout. -/
theorem C6_stop_flag_semantics :
    (∀ n c k, afterStop (k + 1) ⟨WPhase.sleeping n, c⟩ = ⟨WPhase.done, c⟩) ∧
    (∀ m c k, afterStop (m + 1 + k) ⟨WPhase.scanning m, c⟩ =
      ⟨WPhase.done, c + m⟩) := by
  have hdone : ∀ k c, afterStop k ⟨WPhase.done, c⟩ = ⟨WPhase.done, c⟩ := by
    intro k c
    exact Function.iterate_fixed rfl k
  constructor
  · intro n c k
    have h1 : workerTick false none ⟨WPhase.sleeping n, c⟩ =
        ⟨WPhase.done, c⟩ := by
      cases n <;> rfl
    unfold afterStop
    rw [Function.iterate_succ_apply, h1]
    exact hdone k c
  · intro m
    induction m with
    | zero =>
      intro c k
      unfold afterStop
      have harith : 0 + 1 + k = k + 1 := by omega
      rw [harith, Function.iterate_succ_apply]
      have h1 : workerTick false none ⟨WPhase.scanning 0, c⟩ =
          ⟨WPhase.done, c⟩ := rfl
      rw [h1]
      exact hdone k c
    | succ m ih =>
      intro c k
      unfold afterStop
      have harith : m + 1 + 1 + k = (m + 1 + k) + 1 := by omega
      rw [harith, Function.iterate_succ_apply]
      have h1 : workerTick false none ⟨WPhase.scanning (m + 1), c⟩ =
          ⟨WPhase.scanning m, c + 1⟩ := rfl
      rw [h1]
      have := ih (c + 1) k
      unfold afterStop at this
      rw [this]
      have : c + 1 + m = c + (m + 1) := by omega
      rw [this]

/-- Helper: filtering with a pointwise-stronger predicate yields no more
elements. -/
theorem filter_length_mono (p q : α → Bool) (l : List α)
    (h : ∀ a ∈ l, p a = true → q a = true) :
    (l.filter p).length ≤ (l.filter q).length := by
  induction l with
  | nil => simp
  | cons x xs ih =>
    simp only [List.filter]
    have hx := h x (by simp)
    cases hp : p x with
    | true =>
      rw [hx hp]
      simpa using ih (fun a ha hpa => h a (by simp [ha]) hpa)
    | false =>
      cases hq : q x with
      | true =>
        have := ih (fun a ha hpa => h a (by simp [ha]) hpa)
        simp only [List.length_cons]
        omega
      | false =>
        exact ih (fun a ha hpa => h a (by simp [ha]) hpa)

/-- Helper: filters by pointwise-equal predicates coincide. -/
theorem filter_eq_of_pointwise (p q : α → Bool) (l : List α)
    (h : ∀ a ∈ l, p a = q a) : l.filter p = l.filter q := by
  induction l with
  | nil => rfl
  | cons x xs ih =>
    simp only [List.filter, h x (by simp)]
    rw [ih (fun a ha => h a (by simp [ha]))]

/-- A liquid-but-not-view-liquid advancing row: volume 50000 clears the
aggregator floor (10000) but not the view floor (100000). -/
def rowMidVolume : StoredRow where
  symbol := "MID"
  company_name := none
  price := some 10
  change_percent := some 2
  volume := some 50000
  avg_volume_20d := none
  relative_volume := some 1
  market_cap := none
  market_cap_category := none
  sector := none
  industry := none
  week_52_high := none
  week_52_low := none
  distance_from_52w_high := none
  distance_from_52w_low := none
  is_unusual_volume := false
  is_near_high := false
  is_near_low := false
  last_updated := 0

/-- Claim C7 (corrected): the breadth counts are not taken over the same
liquidity floor as the query views.  Concretely, a table holding one
advancing row with volume 50000 is counted as advancing by the indicator
aggregator (floor volume > 10000, database.py line 660) but would not
pass the convenience-view floor (volume > 100000, line 234). -/
theorem C7_counterexample :
    advancing [rowMidVolume] = 1 ∧
    advancingAtViewFloor [rowMidVolume] = 0 ∧
    advancing [rowMidVolume] ≠ advancingAtViewFloor [rowMidVolume] := by
  refine ⟨by decide, by decide, by decide⟩

/-- Claim C7 (amended): the aggregator breadth counts apply a liquidity
floor of volume > 10000, strictly weaker than the volume > 100000 floor
of the query views; hence the view-floor count never exceeds the
aggregator count, the two coincide on tables whose rows all pass the view
floor, and every row returned by get_unusual_volume does pass the view
floor. -/
theorem C7_breadth_floor :
    (∀ T : List StoredRow, advancingAtViewFloor T ≤ advancing T) ∧
    (∀ r : StoredRow, viewVolumeFloor r = true → qGT r.volume 10000 = true) ∧
    (∀ T : List StoredRow, (∀ r ∈ T, viewVolumeFloor r = true) →
      advancing T = advancingAtViewFloor T) ∧
    (∀ minRvol lim mcc rows r, r ∈ get_unusual_volume minRvol lim mcc rows →
      viewVolumeFloor r = true) := by
  have himp : ∀ r : StoredRow, viewVolumeFloor r = true →
      qGT r.volume 10000 = true := by
    intro r h
    unfold viewVolumeFloor qGT at *
    cases hv : r.volume with
    | none => rw [hv] at h; exact absurd h (by simp)
    | some x =>
      rw [hv] at h
      simp only [decide_eq_true_eq] at h ⊢
      linarith
  refine ⟨?_, himp, ?_, ?_⟩
  · intro T
    unfold advancingAtViewFloor advancing
    apply filter_length_mono
    intro r _ hr
    simp only [Bool.and_eq_true] at hr
    rw [hr.1, himp r hr.2]
    rfl
  · intro T hT
    unfold advancing advancingAtViewFloor
    rw [filter_eq_of_pointwise]
    intro r hr
    rw [himp r (hT r hr), hT r hr]
  · intro minRvol lim mcc rows r hmem
    have h1 : r ∈ (rows.filter (unusualVolumePred minRvol mcc)).insertionSort
        (fun a b => b.relative_volume.getD 0 ≤ a.relative_volume.getD 0) :=
      List.take_subset _ _ hmem
    rw [List.mem_insertionSort] at h1
    have h2 := (List.mem_filter.mp h1).2
    unfold unusualVolumePred at h2
    unfold viewVolumeFloor
    simp only [Bool.and_eq_true] at h2
    exact h2.1.2

/-- Witness for C7 on a one-row all-liquid table, discharging the
pointwise hypotheses at a concrete input. -/
theorem C7_witness :
    advancing [rowMidVolume] = advancingAtViewFloor [{ rowMidVolume with
      volume := some 200000 }] ∧
    qGT (some (200000 : ℚ)) 10000 = true := by
  have h1 := C7_breadth_floor.2.2.1
    [{ rowMidVolume with volume := some 200000 }] (by decide)
  have h2 := C7_breadth_floor.2.1 { rowMidVolume with volume := some 200000 }
    (by decide)
  constructor
  · rw [← h1]; decide
  · exact h2

/-- Concrete requested list with one delisted symbol. -/
def reqC4 : List String := ["AAA", "ZZZ"]

/-- Concrete active universe containing only AAA. -/
def actC4 : List String := ["AAA"]

/-- Concrete fetch function: only AAA yields data. -/
def fetchC4 : String → Option ScanResult := fun s =>
  if s = "AAA" then some (mkResult "AAA" 110 10 4000000 4) else none

/-- Claim C4 (corrected): the stocks_scanned field of the logged ScanRun
row does not equal the original request count.  Concretely, requesting
AAA and ZZZ against an active universe of only AAA logs stocks_scanned =
1 (the post-filter total, alpaca_scan.py lines 414 and 453), not the
requested 2, while stocks_with_data = 1 counts the fetched symbol. -/
theorem C4_counterexample :
    (alpacaScanLog reqC4 actC4 fetchC4).stocks_scanned = 1 ∧
    reqC4.length = 2 ∧
    (alpacaScanLog reqC4 actC4 fetchC4).stocks_scanned ≠ reqC4.length ∧
    (alpacaScanLog reqC4 actC4 fetchC4).stocks_with_data = 1 := by
  refine ⟨by decide, by decide, by decide, ?_⟩
  simp [alpacaScanLog, alpacaValidSymbols, reqC4, actC4, fetchC4, chunksOf,
    accumulatedResults]

/-- Claim C4 (amended): every requested symbol outside the active
universe is silently dropped before any per-symbol work (every scanned
batch holds only symbols of the active set), the logged stocks_scanned
equals the count of requested symbols present in the active universe (not
the original request count), and stocks_with_data counts exactly the
successfully fetched symbols. -/
theorem C4_scan_counts (requested active : List String)
    (fetch : String → Option ScanResult) :
    (alpacaScanLog requested active fetch).stocks_scanned =
      (alpacaValidSymbols requested active).length ∧
    (alpacaScanLog requested active fetch).stocks_with_data =
      ((alpacaValidSymbols requested active).filterMap fetch).length ∧
    (∀ s ∈ alpacaValidSymbols requested active, s ∈ active) ∧
    (∀ b ∈ chunksOf 199 (alpacaValidSymbols requested active),
      ∀ s ∈ b, s ∈ active) := by
  refine ⟨rfl, ?_, ?_, ?_⟩
  · show (accumulatedResults fetch
      (chunksOf 199 (alpacaValidSymbols requested active))).length = _
    rw [accumulatedResults_chunksOf]
  · intro s hs
    have := (List.mem_filter.mp hs).2
    simpa using this
  · intro b hb s hs
    have hmem := mem_chunksOf_subset hb s hs
    have := (List.mem_filter.mp hmem).2
    simpa using this

/-- Witness for C4 instantiating the amended statement at the concrete
two-symbol request. -/
theorem C4_witness :
    (alpacaScanLog reqC4 actC4 fetchC4).stocks_scanned =
      (alpacaValidSymbols reqC4 actC4).length ∧
    (∀ s ∈ alpacaValidSymbols reqC4 actC4, s ∈ actC4) :=
  ⟨(C4_scan_counts reqC4 actC4 fetchC4).1,
   (C4_scan_counts reqC4 actC4 fetchC4).2.2.1⟩

/-- Concrete 51-symbol list, splitting into two FastScanner batches. -/
def syms51 : List String := List.replicate 51 "S"

/-- Concrete fetch function where every symbol yields data. -/
def fetchAll : String → Option ScanResult := fun s => some (mkResult s 1 1 1 1)

/-- Claim C9 (corrected): FastScanner.run_scan does not upsert each
batch immediately.  Concretely, with 51 symbols (two batches) in which
the first batch produces results, the first two store-visible events are
the two batch fetches with no upsert in between — all results are written
in a single deferred bulk upsert after every batch has been processed
(fast_scan.py lines 202-203). -/
theorem C9_counterexample :
    (fastRunEvents syms51 fetchAll).take 2 =
      [ScanEvent.fetchBatch (List.replicate 50 "S"),
       ScanEvent.fetchBatch ["S"]] ∧
    (List.replicate 50 "S").filterMap fetchAll ≠ [] := by
  constructor
  · simp [fastRunEvents, syms51, chunksOf]
  · simp [fetchAll]

/-- Claim C9 (amended): AlpacaScanner.run_scan upserts each batch
immediately — whenever a batch yields results, its upsert event directly
follows that batch fetch and precedes every event of the remaining
batches; FastScanner.run_scan instead fetches all batches first and
performs at most one bulk upsert afterwards, so an interruption of a fast
scan loses the entire scan, not one batch. -/
theorem C9_incremental_upsert :
    (∀ (fetch : String → Option ScanResult) (b : List String)
       (rest : List (List String)), b.filterMap fetch ≠ [] →
      alpacaLoopEvents fetch (b :: rest) =
        ScanEvent.fetchBatch b ::
          ScanEvent.upsertRows (b.filterMap fetch) ::
            alpacaLoopEvents fetch rest) ∧
    (∀ (symbols : List String) (fetch : String → Option ScanResult),
      ∃ tail, fastRunEvents symbols fetch =
        (chunksOf 49 symbols).map ScanEvent.fetchBatch ++ tail ∧
        ∀ e ∈ tail, ∀ bsyms, e ≠ ScanEvent.fetchBatch bsyms) := by
  constructor
  · intro fetch b rest hne
    rw [alpacaLoopEvents]
    simp only [if_neg hne]
    rfl
  · intro symbols fetch
    refine ⟨(if accumulatedResults fetch (chunksOf 49 symbols) = [] then []
        else [ScanEvent.upsertRows
          (accumulatedResults fetch (chunksOf 49 symbols))]) ++
        [ScanEvent.logRun symbols.length
          (accumulatedResults fetch (chunksOf 49 symbols)).length], ?_, ?_⟩
    · rw [fastRunEvents, List.append_assoc]
    · intro e he bsyms
      rcases List.mem_append.mp he with h | h
      · by_cases hc : accumulatedResults fetch (chunksOf 49 symbols) = []
        · rw [if_pos hc] at h
          simp at h
        · rw [if_neg hc] at h
          rcases List.mem_singleton.mp h with rfl
          intro hcontra
          cases hcontra
      · rcases List.mem_singleton.mp h with rfl
        intro hcontra
        cases hcontra

/-- Witness for C9: the immediate per-batch upsert of AlpacaScanner at a
concrete nonempty batch result. -/
theorem C9_witness :
    alpacaLoopEvents fetchAll [["S"]] =
      [ScanEvent.fetchBatch ["S"],
       ScanEvent.upsertRows (["S"].filterMap fetchAll)] :=
  (C9_incremental_upsert.1 fetchAll ["S"] [] (by decide)).trans rfl

/-- Claim C2 (confirmed): over every state of the stocks table, the Fear
and Greed composite is clamped into [0, 100]; each sub-component is the
ratio times 100 when its denominator is positive and 50 when it is zero
(so no division by zero occurs — every divisor is guarded); with zero
advancing, declining and unchanged rows and zero volume, movers and
extremes the score is 50 and the label Neutral; and the label thresholds
are Extreme Fear at 20, Fear at 40, Neutral at 60, Greed at 80, Extreme
Greed above. -/
theorem C2_fear_greed_composite :
    (∀ T : List StoredRow, 0 ≤ fearGreedScore T ∧ fearGreedScore T ≤ 100) ∧
    (∀ T : List StoredRow, 0 < advancing T + declining T + unchanged T →
      fgBreadth T =
        (advancing T : ℚ) / (advancing T + declining T + unchanged T) * 100) ∧
    (∀ T : List StoredRow, advancing T + declining T + unchanged T = 0 →
      fgBreadth T = 50) ∧
    (∀ T : List StoredRow, 0 < totalVolume T →
      fgVolume T = upVolume T / totalVolume T * 100) ∧
    (∀ T : List StoredRow, totalVolume T = 0 → fgVolume T = 50) ∧
    (∀ T : List StoredRow, 0 < gainersPct 3 T + losersPct 3 T →
      fgMomentum T =
        (gainersPct 3 T : ℚ) / (gainersPct 3 T + losersPct 3 T) * 100) ∧
    (∀ T : List StoredRow, gainersPct 3 T + losersPct 3 T = 0 →
      fgMomentum T = 50) ∧
    (∀ T : List StoredRow, 0 < newHighs T + newLows T →
      fgStrength T = (newHighs T : ℚ) / (newHighs T + newLows T) * 100) ∧
    (∀ T : List StoredRow, newHighs T + newLows T = 0 → fgStrength T = 50) ∧
    (∀ T : List StoredRow,
      advancing T + declining T + unchanged T = 0 → totalVolume T = 0 →
      gainersPct 3 T + losersPct 3 T = 0 → newHighs T + newLows T = 0 →
      fearGreedScore T = 50 ∧
      fearGreedLabel (fearGreedScore T) = "Neutral") ∧
    (∀ s : ℤ,
      (s ≤ 20 → fearGreedLabel s = "Extreme Fear") ∧
      (20 < s → s ≤ 40 → fearGreedLabel s = "Fear") ∧
      (40 < s → s ≤ 60 → fearGreedLabel s = "Neutral") ∧
      (60 < s → s ≤ 80 → fearGreedLabel s = "Greed") ∧
      (80 < s → fearGreedLabel s = "Extreme Greed")) := by
  have hb0 : ∀ T : List StoredRow,
      advancing T + declining T + unchanged T = 0 → fgBreadth T = 50 := by
    intro T h
    unfold fgBreadth
    rw [h]
    norm_num
  have hv0 : ∀ T : List StoredRow, totalVolume T = 0 → fgVolume T = 50 := by
    intro T h
    unfold fgVolume
    rw [h]
    norm_num
  have hm0 : ∀ T : List StoredRow,
      gainersPct 3 T + losersPct 3 T = 0 → fgMomentum T = 50 := by
    intro T h
    unfold fgMomentum
    rw [h]
    norm_num
  have hs0 : ∀ T : List StoredRow,
      newHighs T + newLows T = 0 → fgStrength T = 50 := by
    intro T h
    unfold fgStrength
    rw [h]
    norm_num
  refine ⟨?_, ?_, hb0, ?_, hv0, ?_, hm0, ?_, hs0, ?_, ?_⟩
  · intro T
    unfold fearGreedScore
    constructor
    · exact le_max_left 0 _
    · exact max_le (by norm_num) (min_le_left _ _)
  · intro T h
    unfold fgBreadth
    rw [if_pos (by exact_mod_cast h)]
    push_cast
    ring
  · intro T h
    unfold fgVolume
    rw [if_pos h]
  · intro T h
    unfold fgMomentum
    rw [if_pos (by exact_mod_cast h)]
    push_cast
    ring
  · intro T h
    unfold fgStrength
    rw [if_pos (by exact_mod_cast h)]
    push_cast
    ring
  · intro T h1 h2 h3 h4
    have hsc : fearGreedScore T = 50 := by
      unfold fearGreedScore
      rw [hb0 T h1, hv0 T h2, hm0 T h3, hs0 T h4]
      have harg : (50 : ℚ) * (25/100) + 50 * (25/100) + 50 * (25/100) +
          50 * (25/100) = 50 := by norm_num
      rw [harg]
      have hfl : roundHalfEven 50 = 50 := by
        unfold roundHalfEven
        norm_num
      rw [hfl]
      decide
    refine ⟨hsc, ?_⟩
    rw [hsc]
    decide
  · intro s
    refine ⟨?_, ?_, ?_, ?_, ?_⟩ <;>
      · intros
        unfold fearGreedLabel
        split_ifs <;> first | rfl | omega

/-- Witness for C2: the empty table yields score 50 and label Neutral,
with all zero-denominator hypotheses discharged concretely. -/
theorem C2_witness :
    fearGreedScore ([] : List StoredRow) = 50 ∧
    fearGreedLabel (fearGreedScore ([] : List StoredRow)) = "Neutral" ∧
    fgBreadth ([] : List StoredRow) = 50 :=
  ⟨(C2_fear_greed_composite.2.2.2.2.2.2.2.2.2.1 [] rfl rfl rfl rfl).1,
   (C2_fear_greed_composite.2.2.2.2.2.2.2.2.2.1 [] rfl rfl rfl rfl).2,
   C2_fear_greed_composite.2.2.1 [] rfl⟩

/-- The spec example input AAA: price 110, prev_close 100, today volume
4000000, twenty-day average volume 1000000 (two prior bars of 1000000). -/
def snapAAA : Snapshot := ⟨some ⟨some 110, some 4000000⟩, some ⟨some 100⟩, none⟩

/-- Historical bars backing the AAA example (last bar is today). -/
def barsAAA : List Bar :=
  [⟨some 120, some 90, some 1000000⟩, ⟨some 120, some 90, some 1000000⟩,
   ⟨some 120, some 90, some 4000000⟩]

/-- The spec example input BBB: price 95, prev_close 100, today volume
200000, average volume 1000000. -/
def snapBBB : Snapshot := ⟨some ⟨some 95, some 200000⟩, some ⟨some 100⟩, none⟩

/-- Historical bars backing the BBB example. -/
def barsBBB : List Bar :=
  [⟨some 120, some 80, some 1000000⟩, ⟨some 120, some 80, some 1000000⟩,
   ⟨some 120, some 80, some 200000⟩]

/-- Claim C1 (corrected): the stored change_percent is not exactly
(price - prev_close) / prev_close * 100 — the scanner stores the value
rounded to two decimals (alpaca_scan.py line 358).  Concretely, price 1
against prev_close 3 stores -66.67 while the exact formula gives
-200/3. -/
theorem C1_counterexample :
    ∃ r, processSymbol "CCC" none ⟨some ⟨some 1, some 0⟩, some ⟨some 3⟩, none⟩
      [] = some r ∧
      r.change_percent = -6667/100 ∧
      r.change_percent ≠ ((1 : ℚ) - 3) / 3 * 100 := by
  refine ⟨_, rfl, ?_, ?_⟩
  · show pyRound 2 (((1 : ℚ) - 3) / 3 * 100) = -6667/100
    rw [pyRound_eval 2 _ (-6667) (by norm_num) (by norm_num)]
    norm_num
  · show pyRound 2 (((1 : ℚ) - 3) / 3 * 100) ≠ ((1 : ℚ) - 3) / 3 * 100
    rw [pyRound_eval 2 _ (-6667) (by norm_num) (by norm_num)]
    norm_num

/-- Claim C1 (amended): for every symbol whose snapshot passes the
presence and truthiness guards, the stored row holds the spec formulas
rounded to two decimals: change_percent = round2 of the percent change;
relative_volume = round2 of today volume over the average of the returned
bar volumes excluding today (today volume serving as its own average when
fewer than two bars were returned); band high / low are max of the bar
highs / min of the present nonzero bar lows, falling back to the current
price when no bars were returned; the stored distances are round2 of
(price - extreme) / extreme * 100; and the flags, computed from the
unrounded values, satisfy is_unusual_volume iff relative volume at or
above 2, is_near_high iff distance from high at or above -5, is_near_low
iff distance from low at or below 10.  The AAA / BBB examples hold
exactly: change 10 / -5, relative volume 4 / 0.2, unusual volume true /
false. -/
theorem C1_per_symbol_metrics :
    (∀ (symbol : String) (name : Option String) (daily : DailyBar)
       (prev : PrevBar) (latestP : Option ℚ) (bars : List Bar) (p pc : ℚ),
      truthy (pyOr daily.c latestP) = some p →
      truthy prev.c = some pc →
      ∃ r, processSymbol symbol name ⟨some daily, some prev, latestP⟩ bars =
          some r ∧
        r.change_percent = pyRound 2 ((p - pc) / pc * 100) ∧
        r.volume = daily.v.getD 0 ∧
        r.relative_volume = pyRound 2
          (if 0 < avgVolume bars (daily.v.getD 0) then
            daily.v.getD 0 / avgVolume bars (daily.v.getD 0) else 0) ∧
        r.is_unusual_volume = decide
          ((if 0 < avgVolume bars (daily.v.getD 0) then
            daily.v.getD 0 / avgVolume bars (daily.v.getD 0) else 0) ≥ 2) ∧
        r.week_52_high =
          (if bandHigh bars p = 0 then none
           else some (pyRound 2 (bandHigh bars p))) ∧
        r.week_52_low =
          (if bandLow bars p = 0 then none
           else some (pyRound 2 (bandLow bars p))) ∧
        (bandHigh bars p ≠ 0 →
          r.distance_from_52w_high =
            (if (p - bandHigh bars p) / bandHigh bars p * 100 = 0 then none
             else some (pyRound 2
               ((p - bandHigh bars p) / bandHigh bars p * 100))) ∧
          r.is_near_high =
            decide ((p - bandHigh bars p) / bandHigh bars p * 100 ≥ -5)) ∧
        (bandLow bars p ≠ 0 →
          r.distance_from_52w_low =
            (if (p - bandLow bars p) / bandLow bars p * 100 = 0 then none
             else some (pyRound 2
               ((p - bandLow bars p) / bandLow bars p * 100))) ∧
          r.is_near_low =
            decide ((p - bandLow bars p) / bandLow bars p * 100 ≤ 10)) ∧
        (bars = [] → bandHigh bars p = p ∧ bandLow bars p = p)) ∧
    (∃ rA, processSymbol "AAA" none snapAAA barsAAA = some rA ∧
      rA.change_percent = 10 ∧ rA.relative_volume = 4 ∧
      rA.is_unusual_volume = true) ∧
    (∃ rB, processSymbol "BBB" none snapBBB barsBBB = some rB ∧
      rB.change_percent = -5 ∧ rB.relative_volume = 1/5 ∧
      rB.is_unusual_volume = false) := by
  have havgA : avgVolume barsAAA 4000000 = 1000000 := by
    simp [avgVolume, barsAAA]
  have havgB : avgVolume barsBBB 200000 = 1000000 := by
    simp [avgVolume, barsBBB]
  refine ⟨?_, ⟨_, rfl, ?_, ?_, ?_⟩, ⟨_, rfl, ?_, ?_, ?_⟩⟩
  case refine_2 =>
    show pyRound 2 (((110 : ℚ) - 100) / 100 * 100) = 10
    rw [pyRound_eval 2 _ 1000 (by norm_num) (by norm_num)]
    norm_num
  case refine_3 =>
    show pyRound 2 (if avgVolume barsAAA 4000000 > 0 then
      (4000000 : ℚ) / avgVolume barsAAA 4000000 else 0) = 4
    rw [havgA, if_pos (by norm_num : (1000000 : ℚ) > 0)]
    rw [show (4000000 : ℚ) / 1000000 = 4 by norm_num]
    rw [pyRound_eval 2 _ 400 (by norm_num) (by norm_num)]
    norm_num
  case refine_4 =>
    show decide ((if avgVolume barsAAA 4000000 > 0 then
      (4000000 : ℚ) / avgVolume barsAAA 4000000 else 0) ≥ 2) = true
    rw [havgA, if_pos (by norm_num : (1000000 : ℚ) > 0)]
    simp only [decide_eq_true_eq]
    norm_num
  case refine_5 =>
    show pyRound 2 (((95 : ℚ) - 100) / 100 * 100) = -5
    rw [pyRound_eval 2 _ (-500) (by norm_num) (by norm_num)]
    norm_num
  case refine_6 =>
    show pyRound 2 (if avgVolume barsBBB 200000 > 0 then
      (200000 : ℚ) / avgVolume barsBBB 200000 else 0) = 1/5
    rw [havgB, if_pos (by norm_num : (1000000 : ℚ) > 0)]
    rw [show (200000 : ℚ) / 1000000 = 1/5 by norm_num]
    rw [pyRound_eval 2 _ 20 (by norm_num) (by norm_num)]
    norm_num
  case refine_7 =>
    show decide ((if avgVolume barsBBB 200000 > 0 then
      (200000 : ℚ) / avgVolume barsBBB 200000 else 0) ≥ 2) = false
    rw [havgB, if_pos (by norm_num : (1000000 : ℚ) > 0)]
    simp only [decide_eq_false_iff_not]
    norm_num
  intro symbol name daily prev latestP bars p pc hp hpc
  simp only [processSymbol]
  rw [hp, hpc]
  refine ⟨_, rfl, rfl, rfl, rfl, rfl, rfl, rfl, ?_, ?_, ?_⟩
  · intro h
    simp only [distOpt, if_neg h]
    exact ⟨trivial, trivial⟩
  · intro h
    simp only [distOpt, if_neg h]
    exact ⟨trivial, trivial⟩
  · intro h
    subst h
    exact ⟨rfl, rfl⟩

/-- Witness for C1 discharging the truthiness hypotheses at the AAA
input. -/
theorem C1_witness :
    truthy (pyOr (some (110 : ℚ)) none) = some 110 ∧
    truthy (some (100 : ℚ)) = some 100 ∧
    (∃ r, processSymbol "AAA" none
        ⟨some ⟨some 110, some 4000000⟩, some ⟨some 100⟩, none⟩ barsAAA =
        some r ∧
      r.change_percent = pyRound 2 (((110 : ℚ) - 100) / 100 * 100)) := by
  refine ⟨by norm_num [truthy, pyOr], by norm_num [truthy], ?_⟩
  obtain ⟨r, hr, hc, -⟩ := C1_per_symbol_metrics.1 "AAA" none
    ⟨some 110, some 4000000⟩ ⟨some 100⟩ none barsAAA 110 100
    (by norm_num [truthy, pyOr]) (by norm_num [truthy])
  exact ⟨r, hr, hc⟩

/-- Two returned bars whose volumes are both zero: the window average is
zero while today volume is positive. -/
def barsZeroVol : List Bar :=
  [⟨some 1, some 1, some 0⟩, ⟨some 1, some 1, some 0⟩]

/-- Claim C3 (corrected): when the computed average volume is zero but
today volume is not, the stored relative_volume is the placeholder 0 —
neither 1.0 nor the raw volume.  Concretely, two returned bars of volume
zero with today volume 5 give average 0 and stored relative_volume 0
(alpaca_scan.py line 336). -/
theorem C3_counterexample :
    avgVolume barsZeroVol 5 = 0 ∧
    ∃ r, processSymbol "DDD" none
        ⟨some ⟨some 10, some 5⟩, some ⟨some 8⟩, none⟩ barsZeroVol = some r ∧
      r.volume = 5 ∧ r.relative_volume = 0 ∧
      r.relative_volume ≠ 1 ∧ r.relative_volume ≠ r.volume := by
  have havg : avgVolume barsZeroVol 5 = 0 := by
    simp [avgVolume, barsZeroVol]
  have hrv : pyRound 2 (if avgVolume barsZeroVol 5 > 0 then
      (5 : ℚ) / avgVolume barsZeroVol 5 else 0) = 0 := by
    rw [havg, if_neg (by norm_num), pyRound_eval 2 0 0 (by norm_num)
      (by norm_num)]
    norm_num
  refine ⟨havg, _, rfl, rfl, hrv, ?_, ?_⟩
  · show pyRound 2 (if avgVolume barsZeroVol 5 > 0 then
      (5 : ℚ) / avgVolume barsZeroVol 5 else 0) ≠ 1
    rw [hrv]
    norm_num
  · show pyRound 2 (if avgVolume barsZeroVol 5 > 0 then
      (5 : ℚ) / avgVolume barsZeroVol 5 else 0) ≠ (5 : ℚ)
    rw [hrv]
    norm_num

/-- Claim C3 (amended): relative_volume is never produced by a division
by zero — the quotient is taken only when the computed average volume is
positive, and the stored value is 0 otherwise.  In the degraded no-bars
mode the average is today volume itself, so the stored value is 1.0 when
today volume is positive and 0 (which then equals the raw volume) when
today volume is zero; but a zero average arising from returned bars of
zero volume stores the placeholder 0 regardless of today volume. -/
theorem C3_relative_volume_guard :
    ∀ (symbol : String) (name : Option String) (daily : DailyBar)
      (prev : PrevBar) (latestP : Option ℚ) (bars : List Bar) (p pc : ℚ),
      truthy (pyOr daily.c latestP) = some p →
      truthy prev.c = some pc →
      ∃ r, processSymbol symbol name ⟨some daily, some prev, latestP⟩ bars =
          some r ∧
        (avgVolume bars (daily.v.getD 0) > 0 →
          r.relative_volume =
            pyRound 2 (daily.v.getD 0 / avgVolume bars (daily.v.getD 0))) ∧
        (¬ avgVolume bars (daily.v.getD 0) > 0 → r.relative_volume = 0) ∧
        (bars.length ≤ 1 → avgVolume bars (daily.v.getD 0) = daily.v.getD 0) ∧
        (bars.length ≤ 1 → 0 < daily.v.getD 0 → r.relative_volume = 1) ∧
        (bars.length ≤ 1 → daily.v.getD 0 = 0 →
          r.relative_volume = 0 ∧ r.volume = 0) := by
  intro symbol name daily prev latestP bars p pc hp hpc
  have ha : bars.length ≤ 1 →
      avgVolume bars (daily.v.getD 0) = daily.v.getD 0 := by
    intro h
    unfold avgVolume
    rw [if_neg (by omega)]
  simp only [processSymbol]
  rw [hp, hpc]
  refine ⟨_, rfl, ?_, ?_, ha, ?_, ?_⟩
  · intro h
    show pyRound 2 (if avgVolume bars (daily.v.getD 0) > 0 then
        daily.v.getD 0 / avgVolume bars (daily.v.getD 0) else 0) =
      pyRound 2 (daily.v.getD 0 / avgVolume bars (daily.v.getD 0))
    rw [if_pos h]
  · intro h
    show pyRound 2 (if avgVolume bars (daily.v.getD 0) > 0 then
        daily.v.getD 0 / avgVolume bars (daily.v.getD 0) else 0) = 0
    rw [if_neg h, pyRound_eval 2 0 0 (by norm_num) (by norm_num)]
    norm_num
  · intro h hv
    show pyRound 2 (if avgVolume bars (daily.v.getD 0) > 0 then
        daily.v.getD 0 / avgVolume bars (daily.v.getD 0) else 0) = 1
    rw [ha h, if_pos hv, div_self (ne_of_gt hv),
      pyRound_eval 2 1 100 (by norm_num) (by norm_num)]
    norm_num
  · intro h hv
    constructor
    · show pyRound 2 (if avgVolume bars (daily.v.getD 0) > 0 then
        daily.v.getD 0 / avgVolume bars (daily.v.getD 0) else 0) = 0
      rw [ha h, hv, if_neg (by norm_num),
        pyRound_eval 2 0 0 (by norm_num) (by norm_num)]
      norm_num
    · exact hv

/-- Witness for C3: the degraded no-bars mode at today volume 7 stores
relative_volume exactly 1. -/
theorem C3_witness :
    ∃ r, processSymbol "EEE" none
        ⟨some ⟨some 10, some 7⟩, some ⟨some 8⟩, none⟩ [] = some r ∧
      r.relative_volume = 1 := by
  obtain ⟨r, hr, -, -, -, h4, -⟩ := C3_relative_volume_guard "EEE" none
    ⟨some 10, some 7⟩ ⟨some 8⟩ none [] 10 8 (by norm_num [truthy, pyOr])
    (by norm_num [truthy])
  exact ⟨r, hr, h4 (by norm_num) (by norm_num)⟩

/-- Claim C10 (confirmed): a symbol whose price equals the computed band
extreme has distance 0, which the scanner stores as NULL (the Python
zero-is-falsy guard on line 368) while still computing the near flag from
the unrounded 0 (0 at or above -5, 0 at or below 10); the row is
therefore never returned by get_near_52w_high / get_near_52w_low, whose
WHERE clauses compare the NULL distance column.  When no bars are
returned, the band collapses to the current price, so this case always
applies. -/
theorem C10_zero_distance_null :
    ∀ (symbol : String) (name : Option String) (daily : DailyBar)
      (prev : PrevBar) (latestP : Option ℚ) (bars : List Bar) (p pc : ℚ),
      truthy (pyOr daily.c latestP) = some p →
      truthy prev.c = some pc →
      ∃ r, processSymbol symbol name ⟨some daily, some prev, latestP⟩ bars =
          some r ∧
        (bandHigh bars p = p →
          r.distance_from_52w_high = none ∧ r.is_near_high = true ∧
          ∀ (t : ℕ) (maxD : ℚ) (lim : ℕ) (mcc : Option String)
            (rows : List StoredRow),
            storeRow r t ∉ get_near_52w_high maxD lim mcc rows) ∧
        (bandLow bars p = p →
          r.distance_from_52w_low = none ∧ r.is_near_low = true ∧
          ∀ (t : ℕ) (maxD : ℚ) (lim : ℕ) (mcc : Option String)
            (rows : List StoredRow),
            storeRow r t ∉ get_near_52w_low maxD lim mcc rows) ∧
        (bars = [] → bandHigh bars p = p ∧ bandLow bars p = p) := by
  intro symbol name daily prev latestP bars p pc hp hpc
  have hp0 : p ≠ 0 := truthy_some_ne_zero hp
  simp only [processSymbol]
  rw [hp, hpc]
  refine ⟨_, rfl, ?_, ?_, ?_⟩
  · intro hband
    have hdeq : distOpt p (bandHigh bars p) = some 0 := by
      rw [hband]
      unfold distOpt
      rw [if_neg hp0]
      simp
    have hdist : (match distOpt p (bandHigh bars p) with
        | some d => if d = 0 then none else some (pyRound 2 d)
        | none => none) = (none : Option ℚ) := by
      rw [hdeq]
      simp
    have hnear : (match distOpt p (bandHigh bars p) with
        | some d => decide (d ≥ -5)
        | none => false) = true := by
      rw [hdeq]
      simp only [decide_eq_true_eq]
      norm_num
    refine ⟨hdist, hnear, ?_⟩
    intro t maxD lim mcc rows hmem
    have h1 := List.take_subset _ _ hmem
    rw [List.mem_insertionSort] at h1
    have h2 := (List.mem_filter.mp h1).2
    simp [near52wHighPred, qGE, storeRow, hdist] at h2
  · intro hband
    have hdeq : distOpt p (bandLow bars p) = some 0 := by
      rw [hband]
      unfold distOpt
      rw [if_neg hp0]
      simp
    have hdist : (match distOpt p (bandLow bars p) with
        | some d => if d = 0 then none else some (pyRound 2 d)
        | none => none) = (none : Option ℚ) := by
      rw [hdeq]
      simp
    have hnear : (match distOpt p (bandLow bars p) with
        | some d => decide (d ≤ 10)
        | none => false) = true := by
      rw [hdeq]
      simp only [decide_eq_true_eq]
      norm_num
    refine ⟨hdist, hnear, ?_⟩
    intro t maxD lim mcc rows hmem
    have h1 := List.take_subset _ _ hmem
    rw [List.mem_insertionSort] at h1
    have h2 := (List.mem_filter.mp h1).2
    simp [near52wLowPred, qLE, storeRow, hdist] at h2
  · intro hb
    subst hb
    exact ⟨rfl, rfl⟩

/-- Witness for C10: with no bars at price 100, the stored distances are
NULL while the near flags are set. -/
theorem C10_witness :
    ∃ r, processSymbol "FFF" none
        ⟨some ⟨some 100, some 5000⟩, some ⟨some 90⟩, none⟩ [] = some r ∧
      r.distance_from_52w_high = none ∧ r.is_near_high = true ∧
      r.distance_from_52w_low = none ∧ r.is_near_low = true := by
  obtain ⟨r, hr, hHigh, hLow, hBands⟩ := C10_zero_distance_null "FFF" none
    ⟨some 100, some 5000⟩ ⟨some 90⟩ none [] 100 90
    (by norm_num [truthy, pyOr]) (by norm_num [truthy])
  obtain ⟨h1, h2⟩ := hBands rfl
  obtain ⟨hdH, hnH, -⟩ := hHigh h1
  obtain ⟨hdL, hnL, -⟩ := hLow h2
  exact ⟨r, hr, hdH, hnH, hdL, hnL⟩

end Scanner
